import Mathlib

/-!
Verification development for the adaptive image-preprocessing engine of the
DocuExtract repository (`src/preprocessing/image_analyzer.py` and
`src/preprocessing/smart_preprocessor.py`), shallowly embedded in Lean 4.

Numeric image metrics (Python floats) are modelled as rationals `ℚ`; pixel
intensities are natural numbers.  Library routines from OpenCV / PIL whose
numeric kernels lie outside the repository (Gaussian blur, bilateral filter,
non-local means, CLAHE, rotation, Hough line detection, Otsu and adaptive
thresholding, OCR) are treated as opaque: each one either becomes a parameter
of the embedding or is represented by the exact data the repository's own
logic extracts from it (e.g. the per-line angle for HoughLines, the black
pixel count of a candidate binarization).  All branching, thresholds,
arithmetic, ordering of steps and list accumulation performed by the
repository's own code are embedded faithfully.
-/

namespace DocuExtract

/-- The numeric part of the metrics dictionary built by
`ImageAnalyzer.analyze` (`image_analyzer.py`).  The boolean issue flags and
`overall_quality` are derived from these fields exactly as
`_determine_quality_issues` / `_calculate_overall_quality` derive them, so
they are modelled as functions of this structure rather than stored twice. -/
structure Metrics where
  blur_score : ℚ
  contrast : ℚ
  brightness : ℚ
  noise_level : ℚ
  text_confidence : ℚ
  skew_angle : ℚ
  is_color : Bool
deriving DecidableEq

/-- `self.metrics['has_low_contrast'] = self.metrics['contrast'] < 40`. -/
def has_low_contrast (m : Metrics) : Bool := m.contrast < 40

/-- `self.metrics['is_too_dark'] = self.metrics['brightness'] < 80`. -/
def is_too_dark (m : Metrics) : Bool := m.brightness < 80

/-- `self.metrics['is_too_bright'] = self.metrics['brightness'] > 200`. -/
def is_too_bright (m : Metrics) : Bool := m.brightness > 200

/-- `self.metrics['is_blurry'] = self.metrics['blur_score'] < 100`. -/
def is_blurry (m : Metrics) : Bool := m.blur_score < 100

/-- `self.metrics['is_noisy'] = self.metrics['noise_level'] > 15`. -/
def is_noisy (m : Metrics) : Bool := m.noise_level > 15

/-- `self.metrics['needs_skew_correction'] = abs(self.metrics['skew_angle']) > 0.5`. -/
def needs_skew_correction (m : Metrics) : Bool := |m.skew_angle| > 1/2

/-- `ImageAnalyzer._calculate_overall_quality`: start at 100, subtract the
penalties for the detected issues, scale by `0.5 + 0.5 * ocr_factor` where
`ocr_factor = text_confidence / 100`, and clamp to `[0, 100]` via
`max(0.0, min(100.0, score))`. -/
def overall_quality (m : Metrics) : ℚ :=
  let score : ℚ := 100
  let score := if has_low_contrast m then score - 20 else score
  let score := if is_too_dark m || is_too_bright m then score - 15 else score
  let score := if is_blurry m then score - 25 else score
  let score := if is_noisy m then score - 15 else score
  let score := if needs_skew_correction m then score - 10 else score
  let ocr_factor := m.text_confidence / 100
  let score := score * (1/2 + 1/2 * ocr_factor)
  max 0 (min 100 score)

/-- The seven boolean recommendations returned by
`ImageAnalyzer.get_preprocessing_recommendations`, in the key order of the
Python dict. -/
structure Recommendations where
  convert_grayscale : Bool
  adjust_brightness : Bool
  enhance_contrast : Bool
  sharpen : Bool
  denoise : Bool
  correct_skew : Bool
  apply_threshold : Bool
deriving DecidableEq

/-- `ImageAnalyzer.get_preprocessing_recommendations`. -/
def get_preprocessing_recommendations (m : Metrics) : Recommendations where
  convert_grayscale := m.is_color && m.text_confidence < 70
  adjust_brightness := is_too_dark m || is_too_bright m
  enhance_contrast := has_low_contrast m
  sharpen := is_blurry m
  denoise := is_noisy m
  correct_skew := needs_skew_correction m
  apply_threshold := m.text_confidence < 60

/-- `any(recommendations.values())` over the seven recommendation values. -/
def Recommendations.anyTrue (r : Recommendations) : Bool :=
  r.convert_grayscale || r.adjust_brightness || r.enhance_contrast ||
    r.sharpen || r.denoise || r.correct_skew || r.apply_threshold

/-- `ImageAnalyzer.needs_preprocessing`:
`overall_quality < 80 or any(recommendations.values())`. -/
def needs_preprocessing (m : Metrics) : Bool :=
  decide (overall_quality m < 80) || (get_preprocessing_recommendations m).anyTrue

/-! ### Skew detection (`ImageAnalyzer._detect_skew`) -/

/-- The central element (odd length) or mean of the two central elements
(even length) of the list once sorted ascending — the order statistic
`np.median` computes. -/
def medianOfSorted (s : List ℚ) : ℚ :=
  if s.length % 2 = 1 then s.getD (s.length / 2) 0
  else (s.getD (s.length / 2 - 1) 0 + s.getD (s.length / 2) 0) / 2

/-- `np.median` on a one-dimensional array. -/
def np_median (l : List ℚ) : ℚ :=
  medianOfSorted (List.insertionSort (fun x y => x ≤ y) l)

/-- `ImageAnalyzer._detect_skew`.  `cv2.Canny` and `cv2.HoughLines` are
opaque library primitives; the embedding takes as input the list of values
`theta * 180 / pi - 90`, one per line the Hough transform returned (the empty
list when `lines is None`).  The method's own logic — keeping only angles in
`[-45, 45]`, returning their median when any survive and `0.0` otherwise —
is embedded from the source. -/
def detect_skew (lineAngles : List ℚ) : ℚ :=
  let angles := lineAngles.filter (fun a => decide (-45 ≤ a) && decide (a ≤ 45))
  if angles.isEmpty then 0 else np_median angles

/-! ### Images and corrective operations -/

/-- A PIL image: mode `L` (single channel, one intensity per pixel) or mode
`RGB` (one triple per pixel); pixels listed row-major.  `np.array` of an
`L` image has a 2-dimensional shape, of an `RGB` image a 3-dimensional
shape, which is how the source distinguishes the two cases. -/
inductive PImage where
  | L (pixels : List ℕ)
  | RGB (pixels : List (ℕ × ℕ × ℕ))
deriving DecidableEq

/-- The test `image.mode == 'L'`. -/
def PImage.modeL : PImage → Bool
  | .L _ => true
  | .RGB _ => false

/-- The ITU-R 601-2 luma transform PIL's `Image.convert('L')` applies to an
RGB pixel: `(R*19595 + G*38470 + B*7471 + 2^15) >> 16`, i.e. rounded
`R*299/1000 + G*587/1000 + B*114/1000`. -/
def lumaL (p : ℕ × ℕ × ℕ) : ℕ :=
  (19595 * p.1 + 38470 * p.2.1 + 7471 * p.2.2 + 32768) / 65536

/-- `img.convert('L')`: a no-op on a mode-`L` image, the luma transform on
an RGB image. -/
def PImage.convertL : PImage → PImage
  | .L px => .L px
  | .RGB px => .L (px.map lumaL)

/-- `ImageOps.invert`: every channel value `v` becomes `255 - v`. -/
def PImage.invertPixels : PImage → PImage
  | .L px => .L (px.map (fun v => 255 - v))
  | .RGB px => .RGB (px.map (fun p => (255 - p.1, 255 - p.2.1, 255 - p.2.2)))

/-- The corrective transforms of `SmartPreprocessor` whose pixel kernels are
OpenCV / PIL library calls outside the repository (rotation, brightness
scaling, CLAHE, the denoise filters, sharpening, thresholding) together with
`np.array(img).mean()`; the embedding is parametric in them, while every
branch, threshold and list the repository's own code builds is concrete. -/
structure CVOps where
  correctSkew : PImage → ℚ → PImage
  autoBrightness : PImage → ℚ → PImage
  enhanceContrast : PImage → PImage
  smartDenoise : PImage → ℚ → PImage
  smartSharpen : PImage → ℚ → PImage
  adaptiveThreshold : PImage → PImage
  meanBrightness : PImage → ℚ

/-! ### Denoise dispatch (`SmartPreprocessor._smart_denoise`) -/

/-- The possible actions of `_smart_denoise`, with the cv2 parameters the
source passes: kernel size for `cv2.GaussianBlur`, diameter and sigmas for
`cv2.bilateralFilter`, strength and window sizes for
`cv2.fastNlMeansDenoising` / `cv2.fastNlMeansDenoisingColored`. -/
inductive DenoiseAlg where
  | noop
  | gaussianBlur (kw kh : ℕ)
  | bilateralFilter (d sigmaColor sigmaSpace : ℕ)
  | nlMeans (h templateWindowSize searchWindowSize : ℕ)
  | nlMeansColored (h hColor templateWindowSize searchWindowSize : ℕ)
deriving DecidableEq

/-- The dispatch of `SmartPreprocessor._smart_denoise`, verbatim from the
source: `noise_level < 5` returns the image unchanged; `noise_level > 20`
picks non-local means (the colored variant when the array is not
2-dimensional); `elif noise_level > 10` picks the bilateral filter; the
final `else` picks the 3×3 Gaussian blur.  The filters' pixel arithmetic is
cv2 code outside the repository, so the result is reported as the selected
algorithm. -/
def smart_denoise_choice (singleChannel : Bool) (noise_level : ℚ) : DenoiseAlg :=
  if noise_level < 5 then .noop
  else if noise_level > 20 then
    (if singleChannel then .nlMeans 10 7 21 else .nlMeansColored 10 10 7 21)
  else if noise_level > 10 then .bilateralFilter 9 75 75
  else .gaussianBlur 3 3

/-! ### Adaptive threshold selection (`SmartPreprocessor._adaptive_threshold`) -/

/-- `np.sum(result == 0) / result.size`: the fraction of black ("ink")
pixels of a binarized image. -/
def inkFrac (px : List ℕ) : ℚ :=
  ((px.countP (fun v => v == 0) : ℕ) : ℚ) / (px.length : ℚ)

/-- The candidate score `1.0 - abs(ratio - 0.15) / 0.15`. -/
def thresholdScore (ratio : ℚ) : ℚ := 1 - |ratio - 15/100| / (15/100)

/-- The score of a candidate binarization, via its ink ratio. -/
def candScore (result : List ℕ) : ℚ := thresholdScore (inkFrac result)

/-- One iteration of the `for name, result in methods` loop of
`_adaptive_threshold`: a candidate whose ink ratio lies in `[0.05, 0.3]` is
scored, and becomes the new best when its score strictly exceeds
`best_score`. -/
def selectStep (acc : Option (List ℕ) × ℚ) (result : List ℕ) : Option (List ℕ) × ℚ :=
  if 5/100 ≤ inkFrac result ∧ inkFrac result ≤ 3/10 then
    if acc.2 < candScore result then (some result, candScore result) else acc
  else acc

/-- The candidate-selection logic of `_adaptive_threshold`.  The three
candidate binarizations (global Otsu, adaptive Gaussian with block size 11
and constant 2, adaptive mean with block size 11 and constant 2) are
produced by opaque cv2 calls and enter as inputs; the selection is embedded
from the source: iterate over them in order with `best_method = None` and
`best_score = 0`, updating per `selectStep`, and at the end return
`best_method`, defaulting to the Otsu result when still `None`. -/
def adaptive_threshold_select (otsu adaptive_gaussian adaptive_mean : List ℕ) : List ℕ :=
  let best := [otsu, adaptive_gaussian, adaptive_mean].foldl selectStep (none, 0)
  match best.1 with
  | some r => r
  | none => otsu

/-! ### Automatic pipeline (`SmartPreprocessor.auto_preprocess`) -/

/-- The keys of the recommendations dict, in source order. -/
def recommendationKeys : List String :=
  ["convert_grayscale", "adjust_brightness", "enhance_contrast", "sharpen",
   "denoise", "correct_skew", "apply_threshold"]

/-- One iteration of the `for step in force_steps` loop:
`if step in recommendations: recommendations[step] = True`. -/
def forceOne (r : Recommendations) (step : String) : Recommendations :=
  if step = "convert_grayscale" then { r with convert_grayscale := true }
  else if step = "adjust_brightness" then { r with adjust_brightness := true }
  else if step = "enhance_contrast" then { r with enhance_contrast := true }
  else if step = "sharpen" then { r with sharpen := true }
  else if step = "denoise" then { r with denoise := true }
  else if step = "correct_skew" then { r with correct_skew := true }
  else if step = "apply_threshold" then { r with apply_threshold := true }
  else r

/-- The whole `for step in force_steps` loop of `auto_preprocess`. -/
def applyForce (r : Recommendations) (force_steps : List String) : Recommendations :=
  force_steps.foldl forceOne r

/-- One conditional block of `auto_preprocess`:
`if <condition>: processed = op(processed); applied_steps.append(name)`
(the parallel `step_details.append` records the same step name). -/
def applyStage (cond : Bool) (op : PImage → PImage) (name : String)
    (st : PImage × List String) : PImage × List String :=
  if cond then (op st.1, st.2 ++ [name]) else st

/-- The processing report assembled at the end of `auto_preprocess`.
`step_details` keeps the `'step'` field of each detail dict, which is always
the name just appended to `applied_steps`. -/
structure Report where
  original_metrics : Metrics
  processed_metrics : Metrics
  applied_steps : List String
  step_details : List String
  quality_improvement : ℚ
  recommendations : Recommendations
deriving DecidableEq

/-- The seven conditional blocks of `auto_preprocess`, in source order:
grayscale (with its `processed.mode != 'L'` guard, evaluated on the
unmodified copy of the input), skew, brightness, contrast, denoise, sharpen,
threshold, each passing the numeric parameter the source passes. -/
def autoStages (ops : CVOps) (metrics : Metrics) (recommendations : Recommendations)
    (image : PImage) : PImage × List String :=
  let st := applyStage (recommendations.convert_grayscale && !image.modeL)
    PImage.convertL "grayscale" (image, [])
  let st := applyStage recommendations.correct_skew
    (fun i => ops.correctSkew i metrics.skew_angle) "skew_correction" st
  let st := applyStage recommendations.adjust_brightness
    (fun i => ops.autoBrightness i metrics.brightness) "brightness_adjustment" st
  let st := applyStage recommendations.enhance_contrast
    ops.enhanceContrast "contrast_enhancement" st
  let st := applyStage recommendations.denoise
    (fun i => ops.smartDenoise i metrics.noise_level) "denoising" st
  let st := applyStage recommendations.sharpen
    (fun i => ops.smartSharpen i metrics.blur_score) "sharpening" st
  applyStage recommendations.apply_threshold
    ops.adaptiveThreshold "adaptive_threshold" st

/-- `SmartPreprocessor.auto_preprocess`, parametric in the opaque corrective
kernels (`ops`) and in `ImageAnalyzer.analyze` (`analyze`), whose numeric
metrics come from cv2/pytesseract measurements.  Everything else — the
recommendation computation, the force-step overrides, the seven conditional
blocks (`autoStages`), the re-analysis and the report — is embedded from the
source. -/
def auto_preprocess (ops : CVOps) (analyze : PImage → Metrics)
    (image : PImage) (force_steps : List String) : PImage × Report :=
  let metrics := analyze image
  let recommendations :=
    applyForce (get_preprocessing_recommendations metrics) force_steps
  let st := autoStages ops metrics recommendations image
  let processed_metrics := analyze st.1
  (st.1,
    { original_metrics := metrics
      processed_metrics := processed_metrics
      applied_steps := st.2
      step_details := st.2
      quality_improvement := overall_quality processed_metrics - overall_quality metrics
      recommendations := recommendations })

/-- The corrective operation `auto_preprocess` runs for each applied-step
name, with the numeric parameter taken from the original metrics exactly as
in the source blocks; any other name leaves the image unchanged. -/
def pipelineStep (ops : CVOps) (metrics : Metrics) (s : String) (img : PImage) : PImage :=
  if s = "grayscale" then img.convertL
  else if s = "skew_correction" then ops.correctSkew img metrics.skew_angle
  else if s = "brightness_adjustment" then ops.autoBrightness img metrics.brightness
  else if s = "contrast_enhancement" then ops.enhanceContrast img
  else if s = "denoising" then ops.smartDenoise img metrics.noise_level
  else if s = "sharpening" then ops.smartSharpen img metrics.blur_score
  else if s = "adaptive_threshold" then ops.adaptiveThreshold img
  else img

/-- The canonical order in which `auto_preprocess` records applied steps. -/
def canonicalStepOrder : List String :=
  ["grayscale", "skew_correction", "brightness_adjustment",
   "contrast_enhancement", "denoising", "sharpening", "adaptive_threshold"]

/-! ### Manual pipeline (`SmartPreprocessor.manual_preprocess`) -/

/-- The keys of `step_mapping`, in source order. -/
def manualStepKeys : List String :=
  ["grayscale", "brightness", "contrast", "denoise", "sharpen", "threshold", "invert"]

/-- The lambda `step_mapping[step]` for each recognized manual step name:
`brightness` passes the image's own mean as current brightness, `denoise` the
fixed noise level 10, `sharpen` the fixed blur score 100, and `invert`
converts to `L` before inverting. -/
def manualStep (ops : CVOps) (step : String) (img : PImage) : PImage :=
  if step = "grayscale" then img.convertL
  else if step = "brightness" then ops.autoBrightness img (ops.meanBrightness img)
  else if step = "contrast" then ops.enhanceContrast img
  else if step = "denoise" then ops.smartDenoise img 10
  else if step = "sharpen" then ops.smartSharpen img 100
  else if step = "threshold" then ops.adaptiveThreshold img
  else if step = "invert" then (img.convertL).invertPixels
  else img

/-- One iteration of the `for step in steps` loop of `manual_preprocess`:
`if step in step_mapping: processed = step_mapping[step](processed);
applied_steps.append(step)`. -/
def manualFold (ops : CVOps) (acc : PImage × List String) (step : String) :
    PImage × List String :=
  if step ∈ manualStepKeys then (manualStep ops step acc.1, acc.2 ++ [step])
  else acc

/-- `SmartPreprocessor.manual_preprocess`: the `for step in steps` loop,
applying `step_mapping[step]` and recording the name when the name is a key
of `step_mapping` and silently doing nothing otherwise; returns the image
and the `applied_steps` list of the returned report. -/
def manual_preprocess (ops : CVOps) (image : PImage) (steps : List String) :
    PImage × List String :=
  steps.foldl (manualFold ops) (image, [])

/-! ### Concrete instantiations used to evaluate the pipelines -/

/-- Corrective kernels instantiated by identities, for evaluating the
pipeline logic (which never inspects their output) on concrete inputs. -/
def idOps : CVOps where
  correctSkew := fun img _ => img
  autoBrightness := fun img _ => img
  enhanceContrast := fun img => img
  smartDenoise := fun img _ => img
  smartSharpen := fun img _ => img
  adaptiveThreshold := fun img => img
  meanBrightness := fun _ => 0

/-- Metrics of a flawless grayscale image: no issue flag fires and no step
is recommended. -/
def cleanMetrics : Metrics where
  blur_score := 1000
  contrast := 50
  brightness := 140
  noise_level := 0
  text_confidence := 95
  skew_angle := 0
  is_color := false

/-- Metrics of a flawless color image with OCR confidence 65: only
`convert_grayscale` is recommended. -/
def colorMetrics : Metrics where
  blur_score := 1000
  contrast := 50
  brightness := 140
  noise_level := 0
  text_confidence := 65
  skew_angle := 0
  is_color := true

/-! ## Claim C1 — overall quality formula and bounds -/

/-- The overall-quality computation as the specification words it: start at
100, subtract 20 for low contrast, 15 for too dark or too bright, 25 for
blur, 15 for noise, 10 for skew, multiply the running score by
`0.5 + 0.5 * text_confidence/100`, clamp to `[0, 100]`. -/
def overall_quality_spec (m : Metrics) : ℚ :=
  max 0 (min 100
    ((100 - (if has_low_contrast m then 20 else 0)
        - (if is_too_dark m || is_too_bright m then 15 else 0)
        - (if is_blurry m then 25 else 0)
        - (if is_noisy m then 15 else 0)
        - (if needs_skew_correction m then 10 else 0))
      * (1/2 + 1/2 * (m.text_confidence / 100))))

/-- C1: `overall_quality` equals the spec formula — 100 minus the penalties
20 (low contrast), 15 (too dark or too bright), 25 (blurry), 15 (noisy),
10 (skew), times `0.5 + 0.5 * text_confidence/100`, clamped to `[0,100]` —
and consequently lies in `[0, 100]` for every metrics valuation. -/
theorem C1_overall_quality_formula_and_bounds (m : Metrics) :
    overall_quality m = overall_quality_spec m ∧
      0 ≤ overall_quality m ∧ overall_quality m ≤ 100 := by
  refine ⟨?_, ?_, ?_⟩
  · simp only [overall_quality, overall_quality_spec]
    split_ifs <;> ring
  · simp only [overall_quality]
    exact le_max_left 0 _
  · simp only [overall_quality]
    exact max_le (by norm_num) (min_le_left 100 _)

/-! ## Claim C4 — recommendation rules -/

/-- C4: each of the seven recommendations holds exactly under its documented
condition, and `needs_preprocessing` holds exactly when the overall quality
is below 80 or some recommendation is true. -/
theorem C4_recommendation_rules (m : Metrics) :
    ((get_preprocessing_recommendations m).convert_grayscale = true ↔
        m.is_color = true ∧ m.text_confidence < 70) ∧
      ((get_preprocessing_recommendations m).adjust_brightness = true ↔
        is_too_dark m = true ∨ is_too_bright m = true) ∧
      ((get_preprocessing_recommendations m).enhance_contrast = true ↔
        has_low_contrast m = true) ∧
      ((get_preprocessing_recommendations m).sharpen = true ↔ is_blurry m = true) ∧
      ((get_preprocessing_recommendations m).denoise = true ↔ is_noisy m = true) ∧
      ((get_preprocessing_recommendations m).correct_skew = true ↔
        needs_skew_correction m = true) ∧
      ((get_preprocessing_recommendations m).apply_threshold = true ↔
        m.text_confidence < 60) ∧
      (needs_preprocessing m = true ↔
        overall_quality m < 80 ∨
          (get_preprocessing_recommendations m).convert_grayscale = true ∨
          (get_preprocessing_recommendations m).adjust_brightness = true ∨
          (get_preprocessing_recommendations m).enhance_contrast = true ∨
          (get_preprocessing_recommendations m).sharpen = true ∨
          (get_preprocessing_recommendations m).denoise = true ∨
          (get_preprocessing_recommendations m).correct_skew = true ∨
          (get_preprocessing_recommendations m).apply_threshold = true) := by
  refine ⟨?_, ?_, ?_, ?_, ?_, ?_, ?_, ?_⟩ <;>
    simp [get_preprocessing_recommendations, needs_preprocessing,
      Recommendations.anyTrue, Bool.or_eq_true, Bool.and_eq_true,
      decide_eq_true_eq, and_assoc, or_assoc]

/-! ## Claim C2 — denoise severity bands -/

/-- C2 counterexample: at `noise_level = 10` the source selects the 3×3
Gaussian blur, not the bilateral filter the claim's `[10,20)` band demands,
and at `noise_level = 20` it selects the bilateral filter, not the
non-local-means denoising the claim's `>= 20` band demands. -/
theorem C2_counterexample :
    smart_denoise_choice true 10 = DenoiseAlg.gaussianBlur 3 3 ∧
      smart_denoise_choice true 10 ≠ DenoiseAlg.bilateralFilter 9 75 75 ∧
      smart_denoise_choice true 20 = DenoiseAlg.bilateralFilter 9 75 75 ∧
      smart_denoise_choice true 20 ≠ DenoiseAlg.nlMeans 10 7 21 := by
  decide

/-- C2 (amended): `_smart_denoise` is a no-op for `noise_level < 5`, applies
the 3×3 Gaussian blur for `noise_level` in `[5, 10]`, the bilateral filter
(diameter 9, color/spatial sigma 75) for `noise_level` in `(10, 20]`, and
non-local-means denoising (h=10, template window 7, search window 21,
colored variant for multi-channel images) for `noise_level > 20`: the
boundaries 10 and 20 select the lower band, the boundary 5 the upper. -/
theorem C2_denoise_bands (singleChannel : Bool) (n : ℚ) :
    (n < 5 → smart_denoise_choice singleChannel n = DenoiseAlg.noop) ∧
      (5 ≤ n ∧ n ≤ 10 →
        smart_denoise_choice singleChannel n = DenoiseAlg.gaussianBlur 3 3) ∧
      (10 < n ∧ n ≤ 20 →
        smart_denoise_choice singleChannel n = DenoiseAlg.bilateralFilter 9 75 75) ∧
      (20 < n →
        smart_denoise_choice singleChannel n =
          if singleChannel then DenoiseAlg.nlMeans 10 7 21
          else DenoiseAlg.nlMeansColored 10 10 7 21) := by
  refine ⟨fun h => ?_, fun h => ?_, fun h => ?_, fun h => ?_⟩ <;>
    simp only [smart_denoise_choice] <;>
    split_ifs <;> first | rfl | linarith [h.1, h.2] | linarith [h]

/-- Evaluation of the amended denoise bands at the boundaries 5, 10, 20 and
a heavy-noise point. -/
theorem C2_witness :
    smart_denoise_choice true 5 = DenoiseAlg.gaussianBlur 3 3 ∧
      smart_denoise_choice true 10 = DenoiseAlg.gaussianBlur 3 3 ∧
      smart_denoise_choice true 20 = DenoiseAlg.bilateralFilter 9 75 75 ∧
      smart_denoise_choice false 25 = DenoiseAlg.nlMeansColored 10 10 7 21 := by
  refine ⟨?_, ?_, ?_, ?_⟩
  · exact (C2_denoise_bands true 5).2.1 (by norm_num)
  · exact (C2_denoise_bands true 10).2.1 (by norm_num)
  · exact (C2_denoise_bands true 20).2.2.1 (by norm_num)
  · simpa using (C2_denoise_bands false 25).2.2.2 (by norm_num)

/-! ## Claim C7 — skew angle range -/

/-- Positions read by `medianOfSorted` hold elements of the list, so any
bound satisfied by every element is satisfied by the value read. -/
theorem getD_bounds {s : List ℚ} {a b : ℚ} (h : ∀ x ∈ s, a ≤ x ∧ x ≤ b)
    {i : ℕ} (hi : i < s.length) : a ≤ s.getD i 0 ∧ s.getD i 0 ≤ b := by
  rw [List.getD_eq_getElem s 0 hi]
  exact h _ (List.getElem_mem hi)

/-- The median selection stays within any interval containing every element
of a nonempty list. -/
theorem medianOfSorted_bounds {s : List ℚ} {a b : ℚ} (hne : s ≠ [])
    (h : ∀ x ∈ s, a ≤ x ∧ x ≤ b) :
    a ≤ medianOfSorted s ∧ medianOfSorted s ≤ b := by
  have hpos : 0 < s.length := List.length_pos.mpr hne
  have h2 : s.length / 2 < s.length := Nat.div_lt_self hpos one_lt_two
  have h1 : s.length / 2 - 1 < s.length := lt_of_le_of_lt (Nat.sub_le _ _) h2
  unfold medianOfSorted
  split_ifs
  · exact getD_bounds h h2
  · have ha := getD_bounds h h1
    have hb := getD_bounds h h2
    constructor
    · linarith [ha.1, hb.1]
    · linarith [ha.2, hb.2]

/-- `np.median` of a nonempty list stays within any interval containing
every element. -/
theorem np_median_bounds {l : List ℚ} {a b : ℚ} (hne : l ≠ [])
    (h : ∀ x ∈ l, a ≤ x ∧ x ≤ b) : a ≤ np_median l ∧ np_median l ≤ b := by
  have hperm : List.Perm (List.insertionSort (fun x y : ℚ => x ≤ y) l) l :=
    List.perm_insertionSort _ l
  unfold np_median
  apply medianOfSorted_bounds
  · intro hcon
    rw [hcon] at hperm
    exact hne hperm.symm.eq_nil
  · intro x hx
    exact h x (hperm.mem_iff.mp hx)

/-- C7: the skew angle `analyze` reports (the result of `_detect_skew`)
always lies in `[-45, 45]`, and is exactly `0.0` whenever no detected line
yields an angle in that range. -/
theorem C7_skew_angle_range (lineAngles : List ℚ) :
    (-45 ≤ detect_skew lineAngles ∧ detect_skew lineAngles ≤ 45) ∧
      ((∀ a ∈ lineAngles, ¬(-45 ≤ a ∧ a ≤ 45)) → detect_skew lineAngles = 0) := by
  constructor
  · simp only [detect_skew]
    split_ifs with he
    · norm_num
    · apply np_median_bounds
      · intro hcon
        rw [hcon] at he
        exact he rfl
      · intro x hx
        have hm := List.mem_filter.mp hx
        have := hm.2
        simp only [Bool.and_eq_true, decide_eq_true_eq] at this
        exact this
  · intro hnone
    have hfil : lineAngles.filter (fun a => decide (-45 ≤ a) && decide (a ≤ 45)) = [] := by
      apply List.filter_eq_nil_iff.mpr
      intro a ha
      simp only [Bool.and_eq_true, decide_eq_true_eq]
      exact fun hcon => hnone a ha hcon
    simp only [detect_skew]
    rw [hfil]
    rfl

/-- Evaluation of C7 on a line list whose only angle lies outside
`[-45, 45]`: the sentinel 0 is returned, within bounds. -/
theorem C7_witness :
    ((-45 ≤ detect_skew [50] ∧ detect_skew [50] ≤ 45) ∧ detect_skew [50] = 0) := by
  have h := C7_skew_angle_range [50]
  refine ⟨h.1, h.2 ?_⟩
  intro a ha hcon
  rw [List.mem_singleton.mp ha] at hcon
  exact absurd hcon.2 (by norm_num)

/-! ## Claim C5 — adaptive threshold candidate selection -/

/-- Band in which a candidate can actually be selected: ink ratio in
`[0.05, 0.3)`.  At ratio exactly 0.3 the score is 0, which never strictly
exceeds the initial `best_score = 0`. -/
def qualifies (result : List ℕ) : Prop :=
  5/100 ≤ inkFrac result ∧ inkFrac result < 3/10

instance : DecidablePred qualifies := fun result =>
  decidable_of_iff (5/100 ≤ inkFrac result ∧ inkFrac result < 3/10) Iff.rfl

/-- The selection score is positive exactly when the ratio is within 0.15
of the ideal 0.15. -/
theorem thresholdScore_pos_iff {r : ℚ} :
    0 < thresholdScore r ↔ |r - 15/100| < 15/100 := by
  unfold thresholdScore
  constructor
  · intro h
    have hd : |r - 15/100| / (15/100) < 1 := by linarith
    exact (div_lt_one (by norm_num)).mp hd
  · intro h
    have hd : |r - 15/100| / (15/100) < 1 := (div_lt_one (by norm_num)).mpr h
    linarith

/-- A candidate qualifies iff it passes the source's `[0.05, 0.3]` band
test with a positive score. -/
theorem qualifies_iff (result : List ℕ) :
    qualifies result ↔
      ((5/100 ≤ inkFrac result ∧ inkFrac result ≤ 3/10) ∧
        0 < candScore result) := by
  unfold qualifies candScore
  constructor
  · rintro ⟨h1, h2⟩
    exact ⟨⟨h1, le_of_lt h2⟩,
      thresholdScore_pos_iff.mpr (abs_lt.mpr ⟨by linarith, by linarith⟩)⟩
  · rintro ⟨⟨h1, h2⟩, hpos⟩
    have := (abs_lt.mp (thresholdScore_pos_iff.mp hpos)).2
    exact ⟨h1, by linarith⟩

/-- On the initial accumulator, a loop step yields the candidate as best
exactly when it qualifies. -/
theorem selectStep_none (result : List ℕ) :
    selectStep (none, 0) result =
      if qualifies result then (some result, candScore result) else (none, 0) := by
  dsimp only [selectStep]
  by_cases hq : qualifies result
  · obtain ⟨hQ, hpos⟩ := (qualifies_iff result).mp hq
    rw [if_pos hq, if_pos hQ, if_pos hpos]
  · rw [if_neg hq]
    by_cases hQ : 5/100 ≤ inkFrac result ∧ inkFrac result ≤ 3/10
    · have hpos : ¬((0:ℚ) < candScore result) := fun hpos =>
        hq ((qualifies_iff result).mpr ⟨hQ, hpos⟩)
      rw [if_pos hQ, if_neg hpos]
    · rw [if_neg hQ]

/-- A later candidate never displaces a qualifying best whose score it does
not strictly exceed. -/
theorem selectStep_keep {best result : List ℕ} (hq : qualifies best)
    (h : qualifies result → candScore result ≤ candScore best) :
    selectStep (some best, candScore best) result = (some best, candScore best) := by
  dsimp only [selectStep]
  by_cases hQ : 5/100 ≤ inkFrac result ∧ inkFrac result ≤ 3/10
  · have hpos : 0 < candScore best := ((qualifies_iff best).mp hq).2
    have hnot : ¬(candScore best < candScore result) := by
      intro hlt
      have hqr : qualifies result :=
        (qualifies_iff result).mpr ⟨hQ, lt_trans hpos hlt⟩
      exact absurd (h hqr) (not_le.mpr hlt)
    rw [if_pos hQ, if_neg hnot]
  · rw [if_neg hQ]

/-- A later candidate displaces the best when it passes the band test and
strictly exceeds the best score. -/
theorem selectStep_take {best result : List ℕ}
    (hQ : 5/100 ≤ inkFrac result ∧ inkFrac result ≤ 3/10)
    (h : candScore best < candScore result) :
    selectStep (some best, candScore best) result = (some result, candScore result) := by
  dsimp only [selectStep]
  rw [if_pos hQ, if_pos h]

/-- C5 counterexample: with candidate ink ratios 0 (Otsu), 0.3 (adaptive
Gaussian) and 0 (adaptive mean), the adaptive-Gaussian candidate is the only
one whose ratio falls in the claim's `[0.05, 0.3]` band, yet the function
returns the Otsu result: the score at ratio 0.3 is 0 and never strictly
exceeds the initial `best_score = 0`. -/
theorem C5_counterexample :
    inkFrac [0, 0, 0, 1, 1, 1, 1, 1, 1, 1] = 3/10 ∧
      ((5:ℚ)/100 ≤ 3/10 ∧ (3:ℚ)/10 ≤ 3/10) ∧
      inkFrac (List.replicate 10 1) = 0 ∧
      ¬((5:ℚ)/100 ≤ 0 ∧ (0:ℚ) ≤ 3/10) ∧
      adaptive_threshold_select (List.replicate 10 1) [0, 0, 0, 1, 1, 1, 1, 1, 1, 1]
          (List.replicate 10 1) = List.replicate 10 1 ∧
      (List.replicate 10 1 : List ℕ) ≠ [0, 0, 0, 1, 1, 1, 1, 1, 1, 1] := by
  have hc0 : List.countP (fun v => v == 0) (List.replicate 10 1) = 0 := by decide
  have hc1 : List.countP (fun v => v == 0) [0, 0, 0, 1, 1, 1, 1, 1, 1, 1] = 3 := by decide
  have h0 : inkFrac (List.replicate 10 1) = 0 := by norm_num [inkFrac, hc0]
  have h1 : inkFrac [0, 0, 0, 1, 1, 1, 1, 1, 1, 1] = 3/10 := by norm_num [inkFrac, hc1]
  have hs0 : thresholdScore 0 = 0 := by
    unfold thresholdScore
    rw [zero_sub, abs_neg, abs_of_pos (by norm_num : (0:ℚ) < 15/100)]
    norm_num
  have hs1 : thresholdScore (3/10) = 0 := by
    unfold thresholdScore
    rw [show (3:ℚ)/10 - 15/100 = 15/100 by norm_num,
      abs_of_pos (by norm_num : (0:ℚ) < 15/100)]
    norm_num
  refine ⟨h1, by norm_num, h0, by norm_num, ?_, by decide⟩
  simp only [adaptive_threshold_select, List.foldl_cons, List.foldl_nil, selectStep,
    candScore, h0, h1, hs0, hs1]
  norm_num

/-- C5 (amended): every candidate whose ink ratio falls in `[0.05, 0.3)` is
scored `1 - |ratio - 0.15|/0.15` and the highest-scoring such candidate is
returned, ties resolved in favour of the earlier candidate in the order
Otsu, adaptive-Gaussian, adaptive-mean; if no candidate's ratio falls in
`[0.05, 0.3)`, the Otsu result is returned.  The claim's closed band
`[0.05, 0.3]` fails only at the right endpoint, where the score is 0. -/
theorem C5_threshold_selection (otsu ag am : List ℕ) :
    ((¬qualifies otsu ∧ ¬qualifies ag ∧ ¬qualifies am) →
        adaptive_threshold_select otsu ag am = otsu) ∧
      ((qualifies otsu ∧ (qualifies ag → candScore ag ≤ candScore otsu) ∧
          (qualifies am → candScore am ≤ candScore otsu)) →
        adaptive_threshold_select otsu ag am = otsu) ∧
      ((qualifies ag ∧ (qualifies otsu → candScore otsu < candScore ag) ∧
          (qualifies am → candScore am ≤ candScore ag)) →
        adaptive_threshold_select otsu ag am = ag) ∧
      ((qualifies am ∧ (qualifies otsu → candScore otsu < candScore am) ∧
          (qualifies ag → candScore ag < candScore am)) →
        adaptive_threshold_select otsu ag am = am) := by
  have hsel : adaptive_threshold_select otsu ag am =
      (match (selectStep (selectStep (selectStep (none, 0) otsu) ag) am).1 with
        | some r => r
        | none => otsu) := by
    dsimp only [adaptive_threshold_select, List.foldl]
  refine ⟨?_, ?_, ?_, ?_⟩
  · rintro ⟨ho, ha, hm⟩
    rw [hsel, selectStep_none, if_neg ho, selectStep_none, if_neg ha,
      selectStep_none, if_neg hm]
  · rintro ⟨ho, hag, ham⟩
    rw [hsel, selectStep_none, if_pos ho, selectStep_keep ho hag,
      selectStep_keep ho ham]
  · rintro ⟨ha, hoa, hma⟩
    have hQa := ((qualifies_iff ag).mp ha).1
    by_cases ho : qualifies otsu
    · rw [hsel, selectStep_none, if_pos ho, selectStep_take hQa (hoa ho),
        selectStep_keep ha hma]
    · rw [hsel, selectStep_none, if_neg ho, selectStep_none, if_pos ha,
        selectStep_keep ha hma]
  · rintro ⟨hm, hom, ham⟩
    have hQm := ((qualifies_iff am).mp hm).1
    by_cases ho : qualifies otsu
    · by_cases ha : qualifies ag
      · by_cases hcmp : candScore otsu < candScore ag
        · rw [hsel, selectStep_none, if_pos ho,
            selectStep_take (((qualifies_iff ag).mp ha).1) hcmp,
            selectStep_take hQm (ham ha)]
        · rw [hsel, selectStep_none, if_pos ho,
            selectStep_keep ho (fun _ => not_lt.mp hcmp),
            selectStep_take hQm (hom ho)]
      · rw [hsel, selectStep_none, if_pos ho,
          selectStep_keep ho (fun h => absurd h ha),
          selectStep_take hQm (hom ho)]
    · by_cases ha : qualifies ag
      · rw [hsel, selectStep_none, if_neg ho, selectStep_none, if_pos ha,
          selectStep_take hQm (ham ha)]
      · rw [hsel, selectStep_none, if_neg ho, selectStep_none, if_neg ha,
          selectStep_none, if_pos hm]

/-- Evaluation of the amended selection rule: a lone qualifying Otsu
candidate (ink ratio 0.15) is returned. -/
theorem C5_witness :
    adaptive_threshold_select ([0, 0, 0] ++ List.replicate 17 1)
        (List.replicate 10 1) (List.replicate 10 1) =
      [0, 0, 0] ++ List.replicate 17 1 := by
  have hc17 : List.countP (fun v => v == 0) (List.replicate 17 1) = 0 := by decide
  have hc0 : List.countP (fun v => v == 0) (List.replicate 10 1) = 0 := by decide
  have hq : qualifies ([0, 0, 0] ++ List.replicate 17 1) := by
    unfold qualifies
    rw [show inkFrac ([0, 0, 0] ++ List.replicate 17 1) = 3/20 from by
      norm_num [inkFrac, hc17]]
    norm_num
  have hnq : ¬qualifies (List.replicate 10 1) := by
    intro hcon
    have hle := hcon.1
    rw [show inkFrac (List.replicate 10 1) = 0 from by norm_num [inkFrac, hc0]] at hle
    norm_num at hle
  exact (C5_threshold_selection _ _ _).2.1
    ⟨hq, fun h => absurd h hnq, fun h => absurd h hnq⟩

/-! ## Shared facts about the automatic pipeline -/

/-- The names a stage appends. -/
theorem applyStage_snd (c : Bool) (op : PImage → PImage) (n : String)
    (st : PImage × List String) :
    (applyStage c op n st).2 = st.2 ++ (if c then [n] else []) := by
  cases c <;> simp [applyStage]

/-- A stage preserves the invariant that the current image is the fold of
the recorded step names over the input image. -/
theorem applyStage_fold (f : String → PImage → PImage) {c : Bool}
    {op : PImage → PImage} {n : String} {st : PImage × List String}
    {image : PImage} (hop : ∀ img, f n img = op img)
    (hst : st.1 = st.2.foldl (fun i s => f s i) image) :
    (applyStage c op n st).1 =
      (applyStage c op n st).2.foldl (fun i s => f s i) image := by
  cases c <;> simp [applyStage, hst, List.foldl_append, hop]

/-- The applied-steps list as a function of the post-override
recommendations and of whether the input is already single-channel. -/
def expectedSteps (recs : Recommendations) (inputModeL : Bool) : List String :=
  (if recs.convert_grayscale && !inputModeL then ["grayscale"] else []) ++
    ((if recs.correct_skew then ["skew_correction"] else []) ++
      ((if recs.adjust_brightness then ["brightness_adjustment"] else []) ++
        ((if recs.enhance_contrast then ["contrast_enhancement"] else []) ++
          ((if recs.denoise then ["denoising"] else []) ++
            ((if recs.sharpen then ["sharpening"] else []) ++
              (if recs.apply_threshold then ["adaptive_threshold"] else []))))))

/-- The stage chain records exactly the conditional step names. -/
theorem autoStages_snd (ops : CVOps) (metrics : Metrics)
    (recs : Recommendations) (image : PImage) :
    (autoStages ops metrics recs image).2 = expectedSteps recs image.modeL := by
  simp only [autoStages, expectedSteps, applyStage_snd, List.nil_append,
    List.append_assoc]

/-- The image produced by the stage chain is the fold of the corresponding
corrective operations over the recorded step names. -/
theorem autoStages_fold (ops : CVOps) (metrics : Metrics)
    (recs : Recommendations) (image : PImage) :
    (autoStages ops metrics recs image).1 =
      (autoStages ops metrics recs image).2.foldl
        (fun i s => pipelineStep ops metrics s i) image := by
  unfold autoStages
  refine applyStage_fold _ (fun img => rfl) ?_
  refine applyStage_fold _ (fun img => rfl) ?_
  refine applyStage_fold _ (fun img => rfl) ?_
  refine applyStage_fold _ (fun img => rfl) ?_
  refine applyStage_fold _ (fun img => rfl) ?_
  refine applyStage_fold _ (fun img => rfl) ?_
  refine applyStage_fold _ (fun img => rfl) ?_
  rfl

/-- Membership in a conditional singleton. -/
theorem mem_cond_singleton {x n : String} {c : Bool} :
    x ∈ (if c then [n] else []) ↔ (c = true ∧ x = n) := by
  cases c <;> simp

/-- A conditional singleton is a sublist of the singleton. -/
theorem cond_singleton_sublist {n : String} {c : Bool} :
    (if c then [n] else []).Sublist [n] := by
  cases c <;> simp

/-- The report's applied-steps list, in closed form. -/
theorem auto_applied_steps (ops : CVOps) (analyze : PImage → Metrics)
    (image : PImage) (force_steps : List String) :
    (auto_preprocess ops analyze image force_steps).2.applied_steps =
      expectedSteps
        (applyForce (get_preprocessing_recommendations (analyze image)) force_steps)
        image.modeL := by
  simp only [auto_preprocess]
  exact autoStages_snd ops (analyze image) _ image

/-- The processed image, as the fold over the applied steps. -/
theorem auto_processed_fold (ops : CVOps) (analyze : PImage → Metrics)
    (image : PImage) (force_steps : List String) :
    (auto_preprocess ops analyze image force_steps).1 =
      (auto_preprocess ops analyze image force_steps).2.applied_steps.foldl
        (fun i s => pipelineStep ops (analyze image) s i) image := by
  simp only [auto_preprocess]
  exact autoStages_fold ops (analyze image) _ image

/-- The recorded steps always respect the canonical order. -/
theorem expectedSteps_sublist (recs : Recommendations) (b : Bool) :
    (expectedSteps recs b).Sublist canonicalStepOrder := by
  unfold expectedSteps canonicalStepOrder
  exact List.Sublist.append cond_singleton_sublist
    (List.Sublist.append cond_singleton_sublist
      (List.Sublist.append cond_singleton_sublist
        (List.Sublist.append cond_singleton_sublist
          (List.Sublist.append cond_singleton_sublist
            (List.Sublist.append cond_singleton_sublist cond_singleton_sublist)))))

/-- Membership of each step name in the recorded steps, in terms of the
post-override recommendations. -/
theorem mem_expectedSteps (recs : Recommendations) (b : Bool) :
    ("grayscale" ∈ expectedSteps recs b ↔
        recs.convert_grayscale = true ∧ b = false) ∧
      ("skew_correction" ∈ expectedSteps recs b ↔ recs.correct_skew = true) ∧
      ("brightness_adjustment" ∈ expectedSteps recs b ↔
        recs.adjust_brightness = true) ∧
      ("contrast_enhancement" ∈ expectedSteps recs b ↔
        recs.enhance_contrast = true) ∧
      ("denoising" ∈ expectedSteps recs b ↔ recs.denoise = true) ∧
      ("sharpening" ∈ expectedSteps recs b ↔ recs.sharpen = true) ∧
      ("adaptive_threshold" ∈ expectedSteps recs b ↔
        recs.apply_threshold = true) := by
  refine ⟨?_, ?_, ?_, ?_, ?_, ?_, ?_⟩ <;>
    simp +decide [expectedSteps, List.mem_append, mem_cond_singleton,
      Bool.and_eq_true, Bool.not_eq_true']

/-! ## Claim C3 — canonical order and application conditions -/

/-- C3 counterexample: on an already-single-channel image with
`force_steps = ["convert_grayscale"]` the post-override recommendation for
`convert_grayscale` is true, yet no step at all is applied — the source
additionally requires `processed.mode != 'L'` — so "each step applied iff
its post-override recommendation is true" fails. -/
theorem C3_counterexample :
    (applyForce (get_preprocessing_recommendations cleanMetrics)
        ["convert_grayscale"]).convert_grayscale = true ∧
      (auto_preprocess idOps (fun _ => cleanMetrics) (PImage.L [7])
          ["convert_grayscale"]).2.applied_steps = [] := by
  constructor
  · rfl
  · simp +decide [auto_preprocess, autoStages, applyForce, forceOne, applyStage,
      get_preprocessing_recommendations, cleanMetrics, has_low_contrast, is_too_dark,
      is_too_bright, is_blurry, is_noisy, needs_skew_correction, PImage.modeL]

/-- C3 (amended): `auto_preprocess` applies corrective steps in the fixed
canonical order grayscale, skew correction, brightness, contrast, denoise,
sharpen, adaptive threshold; each step is applied iff its post-override
recommendation is true — except grayscale, which is additionally skipped
when the input is already single-channel — `applied_steps` lists the applied
steps' names in that order, and the processed image is the corresponding
fold of the operations over that list. -/
theorem C3_canonical_order (ops : CVOps) (analyze : PImage → Metrics)
    (image : PImage) (force_steps : List String) (recs : Recommendations)
    (applied : List String)
    (hrecs : recs =
      applyForce (get_preprocessing_recommendations (analyze image)) force_steps)
    (happ : applied =
      (auto_preprocess ops analyze image force_steps).2.applied_steps) :
    applied.Sublist canonicalStepOrder ∧
      ("grayscale" ∈ applied ↔
        recs.convert_grayscale = true ∧ image.modeL = false) ∧
      ("skew_correction" ∈ applied ↔ recs.correct_skew = true) ∧
      ("brightness_adjustment" ∈ applied ↔ recs.adjust_brightness = true) ∧
      ("contrast_enhancement" ∈ applied ↔ recs.enhance_contrast = true) ∧
      ("denoising" ∈ applied ↔ recs.denoise = true) ∧
      ("sharpening" ∈ applied ↔ recs.sharpen = true) ∧
      ("adaptive_threshold" ∈ applied ↔ recs.apply_threshold = true) ∧
      (auto_preprocess ops analyze image force_steps).1 =
        applied.foldl (fun i s => pipelineStep ops (analyze image) s i) image := by
  subst hrecs
  subst happ
  have hsteps := auto_applied_steps ops analyze image force_steps
  have hmem := mem_expectedSteps
    (applyForce (get_preprocessing_recommendations (analyze image)) force_steps)
    image.modeL
  refine ⟨?_, ?_, ?_, ?_, ?_, ?_, ?_, ?_, ?_⟩
  · rw [hsteps]; exact expectedSteps_sublist _ _
  · rw [hsteps]; exact hmem.1
  · rw [hsteps]; exact hmem.2.1
  · rw [hsteps]; exact hmem.2.2.1
  · rw [hsteps]; exact hmem.2.2.2.1
  · rw [hsteps]; exact hmem.2.2.2.2.1
  · rw [hsteps]; exact hmem.2.2.2.2.2.1
  · rw [hsteps]; exact hmem.2.2.2.2.2.2
  · exact auto_processed_fold ops analyze image force_steps

/-- Evaluation of the amended order contract: a color image with OCR
confidence 65 gets exactly the grayscale step, in canonical order. -/
theorem C3_witness :
    (auto_preprocess idOps (fun _ => colorMetrics) (PImage.RGB [(1, 2, 3)])
        []).2.applied_steps.Sublist canonicalStepOrder ∧
      "grayscale" ∈ (auto_preprocess idOps (fun _ => colorMetrics)
        (PImage.RGB [(1, 2, 3)]) []).2.applied_steps := by
  have h := C3_canonical_order idOps (fun _ => colorMetrics) (PImage.RGB [(1, 2, 3)])
    [] _ _ rfl rfl
  refine ⟨h.1, (h.2.1).mpr ⟨?_, rfl⟩⟩
  decide

/-! ## Claim C10 — unknown names in force_steps -/

/-- The override loop leaves the recommendations unchanged on a name that is
not a key of the dict. -/
theorem forceOne_unknown {s : String} (hs : s ∉ recommendationKeys)
    (r : Recommendations) : forceOne r s = r := by
  simp only [recommendationKeys, List.mem_cons, List.mem_singleton, not_or] at hs
  obtain ⟨h1, h2, h3, h4, h5, h6, h7⟩ := hs
  simp [forceOne, h1, h2, h3, h4, h5, h6, h7]

/-- Dropping an unknown name anywhere in `force_steps` does not change the
override result. -/
theorem applyForce_unknown_middle {s : String} (hs : s ∉ recommendationKeys)
    (r : Recommendations) (fs1 fs2 : List String) :
    applyForce r (fs1 ++ s :: fs2) = applyForce r (fs1 ++ fs2) := by
  unfold applyForce
  rw [List.foldl_append, List.foldl_append, List.foldl_cons, forceOne_unknown hs]

/-- C10 counterexample: `"grayscale"` is not one of the seven recommendation
keys, yet forcing it on a color image whose analysis already recommends
grayscale conversion produces a report in which `"grayscale"` appears — the
unknown forced name is ignored but is not absent from the report. -/
theorem C10_counterexample :
    "grayscale" ∉ recommendationKeys ∧
      "grayscale" ∈ (auto_preprocess idOps (fun _ => colorMetrics)
        (PImage.RGB [(0, 0, 0)]) ["grayscale"]).2.applied_steps := by
  constructor
  · decide
  · simp +decide [auto_preprocess, autoStages, applyForce, forceOne, applyStage,
      get_preprocessing_recommendations, colorMetrics, has_low_contrast, is_too_dark,
      is_too_bright, is_blurry, is_noisy, needs_skew_correction, PImage.modeL]

/-- C10 (amended): a force-step name that is not one of the seven
recommendation keys has no effect at all — the call returns exactly what it
returns without that name, so no error is raised and no step is applied on
its account; such a name can still occur in the report only when it
coincides with a step name the pipeline emits for its own reasons (as
`"grayscale"` does).  A forced `convert_grayscale` is skipped, and not
recorded, when the image is already single-channel. -/
theorem C10_unknown_force_ignored (ops : CVOps) (analyze : PImage → Metrics)
    (image : PImage) (fs1 fs2 : List String) (s : String)
    (hs : s ∉ recommendationKeys) :
    auto_preprocess ops analyze image (fs1 ++ s :: fs2) =
        auto_preprocess ops analyze image (fs1 ++ fs2) ∧
      (image.modeL = true →
        "grayscale" ∉ (auto_preprocess ops analyze image
          (fs1 ++ s :: fs2)).2.applied_steps) := by
  constructor
  · simp only [auto_preprocess, applyForce_unknown_middle hs]
  · intro hmode hcon
    rw [auto_applied_steps, hmode] at hcon
    have h := (mem_expectedSteps _ true).1.mp hcon
    simpa using h.2

/-- Evaluation of the amended override policy: an unknown name `"bogus"`
leaves the whole result unchanged and applies nothing. -/
theorem C10_witness :
    auto_preprocess idOps (fun _ => cleanMetrics) (PImage.L [3])
        ["bogus", "denoise"] =
      auto_preprocess idOps (fun _ => cleanMetrics) (PImage.L [3]) ["denoise"] ∧
      "grayscale" ∉ (auto_preprocess idOps (fun _ => cleanMetrics) (PImage.L [3])
        ["bogus", "denoise"]).2.applied_steps := by
  have h := C10_unknown_force_ignored idOps (fun _ => cleanMetrics) (PImage.L [3])
    [] ["denoise"] "bogus" (by decide)
  exact ⟨h.1, h.2 rfl⟩

/-! ## Claim C6 — manual mode applies exactly the recognized names -/

/-- The manual loop, from an arbitrary accumulator: it keeps exactly the
recognized keys of the caller's list, appends them to the record in caller
order, and folds the corresponding operations over the image. -/
theorem manualFold_loop (ops : CVOps) (steps : List String) (img : PImage)
    (acc : List String) :
    steps.foldl (manualFold ops) (img, acc) =
      ((steps.filter (fun s => decide (s ∈ manualStepKeys))).foldl
          (fun i s => manualStep ops s i) img,
        acc ++ steps.filter (fun s => decide (s ∈ manualStepKeys))) := by
  induction steps generalizing img acc with
  | nil => simp
  | cons s rest ih =>
    by_cases hs : s ∈ manualStepKeys
    · simp [manualFold, hs, ih, List.filter_cons]
    · simp [manualFold, hs, ih, List.filter_cons]

/-- C6: `manual_preprocess` applies exactly the recognized step names, in
the caller-given order; every unrecognized name is silently skipped (the
call is total and the skipped name is absent from `applied_steps`); and the
recorded steps do not depend on the image — no re-analysis informs them. -/
theorem C6_manual_exact_steps (ops : CVOps) (image image2 : PImage)
    (steps : List String) :
    (manual_preprocess ops image steps).2 =
        steps.filter (fun s => decide (s ∈ manualStepKeys)) ∧
      (manual_preprocess ops image steps).1 =
        (steps.filter (fun s => decide (s ∈ manualStepKeys))).foldl
          (fun i s => manualStep ops s i) image ∧
      (manual_preprocess ops image steps).2 =
        (manual_preprocess ops image2 steps).2 := by
  unfold manual_preprocess
  rw [manualFold_loop, manualFold_loop]
  simp

/-- Evaluation of C6: an unrecognized name `"bogus"` is skipped without
error, recognized names are applied in caller order (here not the canonical
automatic order). -/
theorem C6_witness :
    (manual_preprocess idOps (PImage.RGB [(10, 20, 30)])
        ["invert", "bogus", "grayscale"]).2 = ["invert", "grayscale"] := by
  have h := (C6_manual_exact_steps idOps (PImage.RGB [(10, 20, 30)])
    (PImage.L []) ["invert", "bogus", "grayscale"]).1
  rw [h]
  decide

/-! ## Claim C9 — grayscale then invert -/

/-- C9: manual mode with steps `["grayscale", "invert"]` on an RGB image
returns a single-channel image whose pixels are, pixel-wise,
`255 - gray(original)` where `gray` is the luma conversion; for 8-bit
inputs the luma value is at most 255, so the natural-number subtraction is
the exact integer one. -/
theorem C9_grayscale_invert (ops : CVOps) (px : List (ℕ × ℕ × ℕ))
    (hvalid : ∀ p ∈ px, p.1 ≤ 255 ∧ p.2.1 ≤ 255 ∧ p.2.2 ≤ 255) :
    (manual_preprocess ops (PImage.RGB px) ["grayscale", "invert"]).1 =
        PImage.L (px.map (fun p => 255 - lumaL p)) ∧
      (manual_preprocess ops (PImage.RGB px) ["grayscale", "invert"]).1.modeL
        = true ∧
      ∀ p ∈ px, lumaL p ≤ 255 ∧
        ((255 - lumaL p : ℕ) : ℤ) = 255 - (lumaL p : ℤ) := by
  have h1 : (manual_preprocess ops (PImage.RGB px) ["grayscale", "invert"]).1 =
      PImage.L (px.map (fun p => 255 - lumaL p)) := by
    simp +decide [manual_preprocess, manualFold, manualStep, PImage.convertL,
      PImage.invertPixels, List.map_map, Function.comp]
  refine ⟨h1, by rw [h1]; rfl, ?_⟩
  intro p hp
  obtain ⟨hr, hg, hb⟩ := hvalid p hp
  have hnum : 19595 * p.1 + 38470 * p.2.1 + 7471 * p.2.2 + 32768 ≤ 16744448 := by
    omega
  have hle : lumaL p ≤ 255 := by
    unfold lumaL
    calc (19595 * p.1 + 38470 * p.2.1 + 7471 * p.2.2 + 32768) / 65536
        ≤ 16744448 / 65536 := Nat.div_le_div_right hnum
      _ = 255 := by norm_num
  exact ⟨hle, by omega⟩

/-- Evaluation of C9 on a two-pixel RGB image. -/
theorem C9_witness :
    (manual_preprocess idOps (PImage.RGB [(10, 20, 30), (255, 255, 255)])
        ["grayscale", "invert"]).1 =
      PImage.L [255 - lumaL (10, 20, 30), 255 - lumaL (255, 255, 255)] := by
  have h := C9_grayscale_invert idOps [(10, 20, 30), (255, 255, 255)] (by decide)
  simpa using h.1

end DocuExtract
